import Mathlib

/-!
Verification development for the Pluriview capture core
(`src/capture/coordinator.rs`, `src/preview/preview.rs`,
`src/preview/manager.rs`).

Shallow embedding conventions:
* `PreviewId` is a `Nat` (the Rust wrapper around `u64`).
* Byte buffers (`Vec<u8>`) are `List Nat`.
* Wall-clock instants and `Duration`s are nanosecond counts as `Nat`
  (`Instant` is monotonic; `Instant::elapsed` is truncated subtraction).
  The two `Instant::now()` calls inside one frame callback are modelled
  as the callback's single timestamp.
* `Duration::from_secs_f64(1.0 / fps)` is modelled as the nearest-nanosecond
  rounding of `10^9 / fps`.
* Shared `Arc<RwLock<bool>>` flags are a token-indexed heap of booleans in
  the coordinator state; each `start_capture` allocates a fresh token.
* The `f32` field `source_aspect_ratio` is modelled as an exact rational.
-/

namespace Pluriview

/-! ## Pixel conversion (`src/preview/preview.rs`, `rgba_from_bgra`) -/

/-- `rgba_from_bgra` from `preview.rs`: the output vector is allocated as
zeros of the input's length; each complete 4-byte chunk is written with
bytes 0 and 2 swapped; a trailing incomplete chunk is left as the
allocated zeros (`chunks_exact` skips the remainder). -/
def rgba_from_bgra : List Nat → List Nat
  | b :: g :: r :: a :: rest => r :: g :: b :: a :: rgba_from_bgra rest
  | rest => rest.map (fun _ => 0)

/-! ## The per-session frame handler
(`src/capture/coordinator.rs`, `struct Capture` and its
`GraphicsCaptureApiHandler` implementation) -/

/-- A raw frame as handed to `on_frame_arrived` by the OS capture facility
(`frame.buffer()` already extracted: width, height, no-padding bytes). -/
structure FrameBuf where
  width : Nat
  height : Nat
  data : List Nat
deriving DecidableEq, Repr

/-- `CapturedFrame` from `coordinator.rs`: what a session sends on the
shared channel. -/
structure CapturedFrame where
  preview_id : Nat
  width : Nat
  height : Nat
  data : List Nat
deriving DecidableEq, Repr

/-- The handler-local state of `struct Capture` in `capture_window_loop`
(the shared flags and the sender are supplied per step).
`Capture::new` initialises `last_frame` to the creation instant and
`frame_interval` to `Duration::from_secs_f64(1.0 / fps)`. -/
structure Capture where
  preview_id : Nat
  frame_interval : Nat
  last_frame : Nat
deriving DecidableEq, Repr

/-- Nearest-nanosecond model of `Duration::from_secs_f64(1.0 / fps)`. -/
def frameIntervalNs (fps : Nat) : Nat := (2 * 10 ^ 9 + fps) / (2 * fps)

/-- `Capture::new` (`coordinator.rs`): `last_frame` starts at the handler's
creation instant `now`. -/
def Capture.force_new (pid fps now : Nat) : Capture :=
  { preview_id := pid, frame_interval := frameIntervalNs fps, last_frame := now }

/-- Outcome of one `on_frame_arrived` callback: the updated handler state,
the frame put on the channel (if any), and whether
`capture_control.stop()` was called. -/
structure StepResult where
  capture : Capture
  sent : Option CapturedFrame
  stopRequested : Bool
deriving DecidableEq, Repr

/-- `on_frame_arrived` (`coordinator.rs`): check `active`, then `paused`,
then the throttle (`elapsed < frame_interval` rejects, before any copy),
then copy the buffer and send; a send error calls
`capture_control.stop()`. `senderOk` is whether `sender.send` succeeds. -/
def on_frame_arrived (c : Capture) (active paused : Bool) (now : Nat)
    (frame : FrameBuf) (senderOk : Bool) : StepResult :=
  if !active then
    { capture := c, sent := none, stopRequested := true }
  else if paused then
    { capture := c, sent := none, stopRequested := false }
  else
    let elapsed := now - c.last_frame
    if elapsed < c.frame_interval then
      { capture := c, sent := none, stopRequested := false }
    else
      let c' := { c with last_frame := now }
      let f : CapturedFrame :=
        { preview_id := c.preview_id, width := frame.width,
          height := frame.height, data := frame.data }
      if senderOk then { capture := c', sent := some f, stopRequested := false }
      else { capture := c', sent := none, stopRequested := true }

/-- One upstream callback as delivered by the OS capture facility: its
wall-clock time, the values of the shared flags at that instant, and the
frame content. -/
structure FrameEvent where
  time : Nat
  active : Bool
  paused : Bool
  frame : FrameBuf
deriving DecidableEq, Repr

/-- Run the handler over a callback trace (channel consumer alive);
returns the `(time, frame)` pairs of the frames forwarded to the channel. -/
def runHandler (c : Capture) : List FrameEvent → List (Nat × CapturedFrame)
  | [] => []
  | e :: rest =>
    let r := on_frame_arrived c e.active e.paused e.time e.frame true
    match r.sent with
    | some f => (e.time, f) :: runHandler r.capture rest
    | none => runHandler r.capture rest

/-- The wall-clock times at which the handler forwarded a frame. -/
def sendTimes (c : Capture) (evs : List FrameEvent) : List Nat :=
  (runHandler c evs).map Prod.fst

/-- `sepFrom L I ts`: each time in `ts` is at least `I` after its
predecessor, the first being at least `I` after `L`. -/
def sepFrom (L I : Nat) : List Nat → Prop
  | [] => True
  | t :: rest => L + I ≤ t ∧ sepFrom t I rest

instance : ∀ ts, Decidable (sepFrom L I ts)
  | [] => isTrue trivial
  | _ :: rest =>
    have := fun t => instDecidableSepFrom (L := t) (I := I) rest
    instDecidableAnd

/-! ## The session registry (`CaptureCoordinator` in `coordinator.rs`)

The `active` and `paused` fields of a `CaptureSession` are
`Arc<RwLock<bool>>` cells shared with the capture thread; they outlive the
registry entry.  We model them as token-indexed boolean heaps in the
coordinator state; `start_capture` allocates a fresh token for each new
session's pair of cells. -/

/-- The registry's view of one `CaptureSession` (the `active`/`paused`
cells are `token`-indexed entries of the coordinator's flag heaps). -/
structure SessionInfo where
  token : Nat
  preview_id : Nat
  hwnd : Int
  window_title : String
  target_fps : Nat
deriving DecidableEq, Repr

/-- `CaptureCoordinator` state: the `sessions` map (association list keyed
by preview id, mirroring the `HashMap`), plus the heaps backing the shared
flag cells and the allocation counter for fresh cells. -/
structure Coordinator where
  nextToken : Nat
  activeFlag : Nat → Bool
  pausedFlag : Nat → Bool
  sessions : List (Nat × SessionInfo)

/-- `CaptureCoordinator::new`: empty registry, no cells allocated (heap
contents of unallocated tokens are irrelevant; `false` is a convenient
default). -/
def Coordinator.force_new : Coordinator :=
  { nextToken := 0, activeFlag := fun _ => false,
    pausedFlag := fun _ => false, sessions := [] }

/-- `HashMap::get`-style lookup on the association list. -/
def lookupSession : List (Nat × SessionInfo) → Nat → Option SessionInfo
  | [], _ => none
  | (k, s) :: rest, id => if k = id then some s else lookupSession rest id

/-- `HashMap::remove`: drop the entry for the key. -/
def eraseSession (l : List (Nat × SessionInfo)) (id : Nat) :
    List (Nat × SessionInfo) :=
  l.filter (fun p => p.1 ≠ id)

/-- `stop_capture` (`coordinator.rs`): if a session is registered for the
id, remove it from the map and write `false` into its shared `active`
cell; otherwise do nothing. -/
def stop_capture (st : Coordinator) (id : Nat) : Coordinator :=
  match lookupSession st.sessions id with
  | some s =>
    { st with
      activeFlag := fun k => if k = s.token then false else st.activeFlag k,
      sessions := eraseSession st.sessions id }
  | none => st

/-- `start_capture` (`coordinator.rs`): first `stop_capture` the id, then
allocate fresh `active := true` / `paused := false` cells, spawn the
worker, and insert the new session. -/
def start_capture (st : Coordinator) (id : Nat) (hwnd : Int)
    (title : String) (fps : Nat) : Coordinator :=
  let st1 := stop_capture st id
  let t := st1.nextToken
  { nextToken := t + 1,
    activeFlag := fun k => if k = t then true else st1.activeFlag k,
    pausedFlag := fun k => if k = t then false else st1.pausedFlag k,
    sessions := (id, { token := t, preview_id := id, hwnd := hwnd,
                       window_title := title, target_fps := fps }) :: st1.sessions }

/-- `pause_capture` (`coordinator.rs`): write `true` into the session's
shared `paused` cell if the session exists; no-op otherwise. -/
def pause_capture (st : Coordinator) (id : Nat) : Coordinator :=
  match lookupSession st.sessions id with
  | some s =>
    { st with pausedFlag := fun k => if k = s.token then true else st.pausedFlag k }
  | none => st

/-- `resume_capture` (`coordinator.rs`): write `false` into the session's
shared `paused` cell if the session exists; no-op otherwise. -/
def resume_capture (st : Coordinator) (id : Nat) : Coordinator :=
  match lookupSession st.sessions id with
  | some s =>
    { st with pausedFlag := fun k => if k = s.token then false else st.pausedFlag k }
  | none => st

/-- `set_target_fps` (`coordinator.rs`): update the stored `target_fps`
of the registered session in place (takes effect on restart). -/
def set_target_fps (st : Coordinator) (id : Nat) (fps : Nat) : Coordinator :=
  { st with sessions := st.sessions.map (fun p =>
      if p.1 = id then (p.1, { p.2 with target_fps := fps }) else p) }

/-- `stop_all` (`coordinator.rs`): collect the registered ids, then stop
each. -/
def stop_all (st : Coordinator) : Coordinator :=
  (st.sessions.map Prod.fst).foldl stop_capture st

/-- The registry's public operations. -/
inductive CoordOp where
  | start (id : Nat) (hwnd : Int) (title : String) (fps : Nat)
  | stop (id : Nat)
  | stopAll
  | pause (id : Nat)
  | resume (id : Nat)
  | setFps (id : Nat) (fps : Nat)
deriving DecidableEq, Repr

def applyOp (st : Coordinator) : CoordOp → Coordinator
  | .start id hwnd title fps => start_capture st id hwnd title fps
  | .stop id => stop_capture st id
  | .stopAll => stop_all st
  | .pause id => pause_capture st id
  | .resume id => resume_capture st id
  | .setFps id fps => set_target_fps st id fps

def applyOps (st : Coordinator) (ops : List CoordOp) : Coordinator :=
  ops.foldl applyOp st

/-- Keys of the session map are pairwise distinct. -/
def NodupKeys (l : List (Nat × SessionInfo)) : Prop :=
  (l.map Prod.fst).Nodup

/-- Every registered session's flag cells were allocated. -/
def TokensBelow (st : Coordinator) : Prop :=
  ∀ p ∈ st.sessions, p.2.token < st.nextToken

/-- Number of sessions registered for a given id. -/
def countKey (l : List (Nat × SessionInfo)) (id : Nat) : Nat :=
  (l.filter (fun p => p.1 = id)).length

/-- A sequence of `start_capture` calls for one id, each with its own
handle, title and rate. -/
def applyStarts (st : Coordinator) (id : Nat)
    (calls : List (Int × String × Nat)) : Coordinator :=
  calls.foldl (fun a c => start_capture a id c.1 c.2.1 c.2.2) st

/-- The operations reachable from the viewport-culling signal:
`pause_capture` and `resume_capture`. -/
def CoordOp.isToggle : CoordOp → Bool
  | .pause _ => true
  | .resume _ => true
  | _ => false

/-! ## Frame mailbox and drain
(`Preview::update_frame` in `src/preview/preview.rs`,
`PreviewManager::get_mut` in `src/preview/manager.rs`,
`CaptureCoordinator::process_frames` in `coordinator.rs`) -/

/-- `FrameData` (`preview.rs`): the mailbox slot's contents. -/
structure FrameData where
  width : Nat
  height : Nat
  data : List Nat
deriving DecidableEq, Repr

/-- The fields of `Preview` (`preview.rs`) touched by `update_frame`:
the single-slot frame mailbox, the cached frame dimensions, the source
aspect ratio (an `f32` in the source, modelled as an exact rational) and
the optional crop region. -/
structure Preview where
  frame_size : Option (Nat × Nat)
  source_aspect : ℚ
  crop_uv : Option (ℚ × ℚ × ℚ × ℚ)
  frame_buffer : Option FrameData
deriving DecidableEq, Repr

/-- `Preview::update_frame` (`preview.rs`): when the dimensions are
positive, cache them and — if no crop region is set — refresh the aspect
ratio; then unconditionally overwrite the mailbox slot. -/
def update_frame (p : Preview) (width height : Nat) (data : List Nat) : Preview :=
  let p1 :=
    if 0 < width ∧ 0 < height then
      { p with
        frame_size := some (width, height),
        source_aspect :=
          if p.crop_uv = none then (width : ℚ) / (height : ℚ) else p.source_aspect }
    else p
  { p1 with frame_buffer := some { width := width, height := height, data := data } }

/-- The `previews` map of `PreviewManager` (`manager.rs`), keyed by
preview id. -/
abbrev PreviewMap := List (Nat × Preview)

/-- `PreviewManager::get_mut` as a lookup (`manager.rs`). -/
def pm_get : PreviewMap → Nat → Option Preview
  | [], _ => none
  | (k, p) :: rest, id => if k = id then some p else pm_get rest id

/-- Writing back through the `get_mut` reference: replace the entry for
the key (only an existing entry can be updated). -/
def pm_set (m : PreviewMap) (id : Nat) (p : Preview) : PreviewMap :=
  m.map (fun q => if q.1 = id then (q.1, p) else q)

/-- One drained frame's effect (`process_frames` body): if the frame's
preview is registered, overwrite its mailbox via `update_frame`;
otherwise the frame is dropped and nothing changes. -/
def deliver (m : PreviewMap) (f : CapturedFrame) : PreviewMap :=
  match pm_get m f.preview_id with
  | some p => pm_set m f.preview_id (update_frame p f.width f.height f.data)
  | none => m

/-- The shared `mpsc` channel's receiver-side state: the queued frames,
and whether every sender has been dropped. -/
structure Channel where
  queue : List CapturedFrame
  disconnected : Bool
deriving DecidableEq, Repr

inductive TryRecvErr where
  | empty
  | disconnected
deriving DecidableEq, Repr

/-- `Receiver::try_recv`: a buffered frame is returned even after
disconnection; `Disconnected` is reported only on an empty queue with all
senders gone. -/
def try_recv (ch : Channel) : Except TryRecvErr (CapturedFrame × Channel) :=
  match ch.queue with
  | f :: rest => .ok (f, { ch with queue := rest })
  | [] => if ch.disconnected then .error .disconnected else .error .empty

/-- The `for _ in 0..10` loop of `process_frames` (`coordinator.rs`),
with explicit remaining budget.  The boolean records whether the
`Disconnected` arm ran `log::error!` (the only externally visible trace
of the condition); both error arms `break`. -/
def process_frames_loop : Nat → Channel → PreviewMap → Channel × PreviewMap × Bool
  | 0, ch, m => (ch, m, false)
  | n + 1, ch, m =>
    match try_recv ch with
    | .ok (f, ch') => process_frames_loop n ch' (deliver m f)
    | .error .empty => (ch, m, false)
    | .error .disconnected => (ch, m, true)

/-- `process_frames` (`coordinator.rs`): drain up to 10 frames per call. -/
def process_frames (ch : Channel) (m : PreviewMap) : Channel × PreviewMap × Bool :=
  process_frames_loop 10 ch m

/-- What the caller of `process_frames` receives back: the function
returns `()` in the source, so the caller observes only the mutated
receiver and preview-manager state — the log flag is not part of it. -/
def process_frames_caller_view (ch : Channel) (m : PreviewMap) :
    Channel × PreviewMap :=
  ((process_frames ch m).1, (process_frames ch m).2.1)

/-! ## Target resolution (`capture_window_loop` in `coordinator.rs`)

Tiers 1 and 2 call into the `windows-capture` library
(`Window::from_name`, `Window::from_contains_name`), whose code is not
part of this repository; those two are modelled from the spec.  Tier 3
(manual enumeration) is embedded from the source. -/

/-- An OS window as seen through enumeration: `is_valid()` and
`title()` (which can fail, hence `Option`). -/
structure OsWindow where
  valid : Bool
  title : Option String
deriving DecidableEq, Repr

/-- `needle` occurs contiguously at the start of `hay`. -/
def leadsWith : List Char → List Char → Bool
  | _, [] => true
  | [], _ :: _ => false
  | h :: hs, n :: ns => h == n && leadsWith hs ns

/-- `str::contains`: `needle` occurs contiguously somewhere in `hay`. -/
def strContainsSub : List Char → List Char → Bool
  | hay, needle =>
    leadsWith hay needle ||
      match hay with
      | [] => false
      | _ :: rest => strContainsSub rest needle

/-- `str::to_lowercase`, per character. -/
def lowerChars (s : String) : List Char := s.toList.map Char.toLower

/-- Modelled from the spec: `Window::from_name` (library code not in this
repository) — "Exact, case-sensitive title match against the current
enumeration of capturable sources", first match in enumeration order. -/
def from_name (ws : List OsWindow) (title : String) : Option OsWindow :=
  ws.find? (fun w => w.title == some title)

/-- Modelled from the spec: `Window::from_contains_name` (library code
not in this repository) — "Case-insensitive substring match where the
candidate's title contains the requested title (first match in
enumeration order)". -/
def from_contains_name (ws : List OsWindow) (title : String) : Option OsWindow :=
  ws.find? (fun w =>
    match w.title with
    | some t => strContainsSub (lowerChars t) (lowerChars title)
    | none => false)

/-- Tier 3 of `capture_window_loop` (`coordinator.rs`): enumerate, skip
invalid windows and failed `title()` calls, and take the first window
whose lowercased title contains the lowercased requested title or vice
versa. -/
def enumerate_find (ws : List OsWindow) (title : String) : Option OsWindow :=
  ws.find? (fun w =>
    w.valid &&
      match w.title with
      | some t =>
        strContainsSub (lowerChars t) (lowerChars title) ||
          strContainsSub (lowerChars title) (lowerChars t)
      | none => false)

/-- The window-finding block of `capture_window_loop` (`coordinator.rs`):
tier 1, else tier 2, else tier 3 on a fresh enumeration (`enum2 = none`
models `Window::enumerate()` itself failing, leaving `found_window`
empty). -/
def resolve_window (enum1 : List OsWindow) (enum2 : Option (List OsWindow))
    (title : String) : Option OsWindow :=
  match from_name enum1 title with
  | some w => some w
  | none =>
    match from_contains_name enum1 title with
    | some w => some w
    | none =>
      match enum2 with
      | some ws => enumerate_find ws title
      | none => none

/-- `capture_window_loop` (`coordinator.rs`) viewed as the frames its
session forwards: if resolution fails the function returns before
creating any capture (zero frames, no retry); otherwise the handler runs
over the callback trace. -/
def capture_window_loop_frames (enum1 : List OsWindow)
    (enum2 : Option (List OsWindow)) (title : String) (c : Capture)
    (evs : List FrameEvent) : List (Nat × CapturedFrame) :=
  match resolve_window enum1 enum2 title with
  | none => []
  | some _ => runHandler c evs

/-- A 2x2 all-zero BGRA frame used as concrete input in witnesses. -/
def fbDemo : FrameBuf := { width := 2, height := 2, data := [1, 2, 3, 4] }

/-! ## Theorems -/

theorem rgba_from_bgra_length (l : List Nat) :
    (rgba_from_bgra l).length = l.length := by
  induction l using rgba_from_bgra.induct with
  | case1 b g r a rest ih => simp [rgba_from_bgra, ih]
  | case2 rest h => cases rest with
    | nil => simp [rgba_from_bgra]
    | cons x xs => cases xs with
      | nil => simp [rgba_from_bgra]
      | cons y ys => cases ys with
        | nil => simp [rgba_from_bgra]
        | cons z zs =>
          cases zs with
          | nil => simp [rgba_from_bgra]
          | cons w ws => exact absurd rfl (h x y z w ws)

theorem rgba_from_bgra_invol (l : List Nat) (h : 4 ∣ l.length) :
    rgba_from_bgra (rgba_from_bgra l) = l := by
  induction l using rgba_from_bgra.induct with
  | case1 b g r a rest ih =>
    have hrest : 4 ∣ rest.length := by
      simp only [List.length_cons] at h; omega
    simp [rgba_from_bgra, ih hrest]
  | case2 rest hne =>
    cases rest with
    | nil => simp [rgba_from_bgra]
    | cons x xs => cases xs with
      | nil => simp only [List.length_cons, List.length_nil] at h; omega
      | cons y ys => cases ys with
        | nil => simp only [List.length_cons, List.length_nil] at h; omega
        | cons z zs =>
          cases zs with
          | nil => simp only [List.length_cons, List.length_nil] at h; omega
          | cons w ws => exact absurd rfl (hne x y z w ws)

theorem sendTimes_sepFrom (c : Capture) (evs : List FrameEvent)
    (hI : 0 < c.frame_interval) :
    sepFrom c.last_frame c.frame_interval (sendTimes c evs) := by
  induction evs generalizing c with
  | nil => trivial
  | cons e rest ih =>
    by_cases ha : e.active
    · by_cases hp : e.paused
      · simpa [sendTimes, runHandler, on_frame_arrived, ha, hp] using ih c hI
      · by_cases hth : e.time - c.last_frame < c.frame_interval
        · simpa [sendTimes, runHandler, on_frame_arrived, ha, hp, hth] using ih c hI
        · have hge : c.last_frame + c.frame_interval ≤ e.time := by omega
          have := ih { c with last_frame := e.time } hI
          simp [sendTimes, runHandler, on_frame_arrived, ha, hp, hth] at this ⊢
          exact ⟨hge, this⟩
    · simpa [sendTimes, runHandler, on_frame_arrived, ha] using ih c hI

theorem sepFrom_length_le (I hi : Nat) (hI : 0 < I) :
    ∀ (ts : List Nat) (L : Nat), sepFrom L I ts → (∀ t ∈ ts, t ≤ hi) →
      ts.length ≤ (hi - L) / I := by
  intro ts
  induction ts with
  | nil => intro _ _ _; simp
  | cons t rest ih =>
    intro L hsep hub
    obtain ⟨ht, hrest⟩ := hsep
    have hthi : t ≤ hi := hub t (by simp)
    have h1 : rest.length ≤ (hi - t) / I :=
      ih t hrest (fun u hu => hub u (by simp [hu]))
    have h2 : (hi - t) / I + 1 ≤ (hi - L) / I := by
      have hLt : L + I ≤ t := ht
      have : (hi - t) + I ≤ hi - L := by omega
      calc (hi - t) / I + 1 = ((hi - t) + I) / I := by
            rw [Nat.add_div_right _ hI]
        _ ≤ (hi - L) / I := Nat.div_le_div_right this
    simpa [List.length_cons] using le_trans (by omega : rest.length + 1 ≤ (hi - t) / I + 1) h2

/-- C1: a frame is forwarded only when wall-clock time since the last
accepted frame (or since handler creation) is at least `frame_interval`
(`sepFrom`), and over any window `[lo, hi]` containing all forwarded
frames at most `(hi - lo) / frame_interval + 1` frames are forwarded,
for every callback trace. -/
theorem throttle_forward_bound (c : Capture) (evs : List FrameEvent) (lo hi : Nat)
    (hI : 0 < c.frame_interval)
    (hwin : ∀ t ∈ sendTimes c evs, lo ≤ t ∧ t ≤ hi) :
    sepFrom c.last_frame c.frame_interval (sendTimes c evs) ∧
    (sendTimes c evs).length ≤ (hi - lo) / c.frame_interval + 1 := by
  refine ⟨sendTimes_sepFrom c evs hI, ?_⟩
  cases hts : sendTimes c evs with
  | nil => simp
  | cons t rest =>
    have hsep := sendTimes_sepFrom c evs hI
    rw [hts] at hsep
    have hrest : rest.length ≤ (hi - t) / c.frame_interval :=
      sepFrom_length_le _ hi hI rest t hsep.2
        (fun u hu => (hwin u (by rw [hts]; simp [hu])).2)
    have hlo : lo ≤ t := (hwin t (by rw [hts]; simp)).1
    have hmono : (hi - t) / c.frame_interval ≤ (hi - lo) / c.frame_interval :=
      Nat.div_le_div_right (by omega)
    simp only [List.length_cons]
    omega

/-- Witness for C1 at a concrete handler and trace. -/
theorem throttle_forward_bound_witness :
    (0 < (10 : Nat) ∧
      ∀ t ∈ sendTimes { preview_id := 1, frame_interval := 10, last_frame := 0 }
        [{ time := 10, active := true, paused := false, frame := fbDemo },
         { time := 15, active := true, paused := false, frame := fbDemo }],
        0 ≤ t ∧ t ≤ 20) ∧
    (sepFrom 0 10 (sendTimes { preview_id := 1, frame_interval := 10, last_frame := 0 }
        [{ time := 10, active := true, paused := false, frame := fbDemo },
         { time := 15, active := true, paused := false, frame := fbDemo }]) ∧
      (sendTimes { preview_id := 1, frame_interval := 10, last_frame := 0 }
        [{ time := 10, active := true, paused := false, frame := fbDemo },
         { time := 15, active := true, paused := false, frame := fbDemo }]).length ≤
        (20 - 0) / 10 + 1) :=
  ⟨⟨by decide, by decide⟩,
    throttle_forward_bound { preview_id := 1, frame_interval := 10, last_frame := 0 }
      [{ time := 10, active := true, paused := false, frame := fbDemo },
       { time := 15, active := true, paused := false, frame := fbDemo }]
      0 20 (by decide) (by decide)⟩

theorem frameIntervalNs_30 : frameIntervalNs 30 = 33333333 := by
  norm_num [frameIntervalNs]

/-- C9 counterexample: with a 30 Hz session whose handler is created at
time 0, two callbacks 10 ms apart at times 0 and 10 ms (active, not
paused) forward 0 frames, not exactly 1 — the first callback is also
subject to the throttle against the creation instant. -/
theorem scenarioA_as_stated_fails :
    (sendTimes (Capture.force_new 1 30 0)
      [{ time := 0, active := true, paused := false, frame := fbDemo },
       { time := 10000000, active := true, paused := false, frame := fbDemo }]).length
      = 0 := by decide

/-- C9 (amended): for a 30 Hz session, if the first callback arrives at
least one frame interval (33333333 ns) after handler creation, two
callbacks 10 ms apart forward exactly one frame — the first is accepted
and the second rejected by the throttle. -/
theorem scenarioA_amended (pid c0 t : Nat) (fb1 fb2 : FrameBuf)
    (h : c0 + frameIntervalNs 30 ≤ t) :
    sendTimes (Capture.force_new pid 30 c0)
      [{ time := t, active := true, paused := false, frame := fb1 },
       { time := t + 10000000, active := true, paused := false, frame := fb2 }]
      = [t] := by
  rw [frameIntervalNs_30] at h
  have h1 : ¬ (t - c0 < 33333333) := by omega
  have h2 : t + 10000000 - t < 33333333 := by omega
  simp [sendTimes, runHandler, on_frame_arrived, Capture.force_new,
    frameIntervalNs_30, h1, h2]

/-- Witness for the amended C9 at a concrete creation time. -/
theorem scenarioA_amended_witness :
    (0 + frameIntervalNs 30 ≤ 33333333) ∧
    sendTimes (Capture.force_new 1 30 0)
      [{ time := 33333333, active := true, paused := false, frame := fbDemo },
       { time := 33333333 + 10000000, active := true, paused := false, frame := fbDemo }]
      = [33333333] :=
  ⟨by rw [frameIntervalNs_30], scenarioA_amended 1 0 33333333 fbDemo fbDemo
      (by rw [frameIntervalNs_30])⟩

theorem lookupSession_eq_none {l : List (Nat × SessionInfo)} {id : Nat} :
    lookupSession l id = none ↔ ∀ p ∈ l, p.1 ≠ id := by
  induction l with
  | nil => simp [lookupSession]
  | cons q rest ih =>
    obtain ⟨k, s⟩ := q
    by_cases hk : k = id
    · subst hk; simp [lookupSession]
    · simp [lookupSession, hk, ih]

theorem eraseSession_keys_ne (l : List (Nat × SessionInfo)) (id : Nat) :
    ∀ p ∈ eraseSession l id, p.1 ≠ id := by
  intro p hp
  simp only [eraseSession, List.mem_filter, decide_not] at hp
  simpa using hp.2

theorem eraseSession_sublist (l : List (Nat × SessionInfo)) (id : Nat) :
    (eraseSession l id).Sublist l :=
  List.filter_sublist l

theorem stop_capture_sessions (st : Coordinator) (id : Nat) :
    (stop_capture st id).sessions = eraseSession st.sessions id := by
  unfold stop_capture
  cases h : lookupSession st.sessions id with
  | some s => rfl
  | none =>
    have hall := lookupSession_eq_none.mp h
    simp only [eraseSession]
    exact (List.filter_eq_self.mpr (fun p hp => by simpa using hall p hp)).symm

theorem stop_capture_nextToken (st : Coordinator) (id : Nat) :
    (stop_capture st id).nextToken = st.nextToken := by
  unfold stop_capture
  cases lookupSession st.sessions id <;> rfl

theorem stop_capture_activeFlag_false (st : Coordinator) (id k : Nat)
    (h : st.activeFlag k = false) : (stop_capture st id).activeFlag k = false := by
  unfold stop_capture
  cases lookupSession st.sessions id with
  | none => exact h
  | some s =>
    simp only
    by_cases hk : k = s.token <;> simp [hk, h]

theorem stop_capture_pausedFlag (st : Coordinator) (id : Nat) :
    (stop_capture st id).pausedFlag = st.pausedFlag := by
  unfold stop_capture
  cases lookupSession st.sessions id <;> rfl

theorem foldl_stop_nextToken (ids : List Nat) :
    ∀ st : Coordinator, ((ids.foldl stop_capture st)).nextToken = st.nextToken := by
  induction ids with
  | nil => intro st; rfl
  | cons i rest ih =>
    intro st
    rw [List.foldl_cons, ih, stop_capture_nextToken]

theorem foldl_stop_activeFlag_false (ids : List Nat) :
    ∀ (st : Coordinator) (k : Nat), st.activeFlag k = false →
      ((ids.foldl stop_capture st)).activeFlag k = false := by
  induction ids with
  | nil => intro st k h; exact h
  | cons i rest ih =>
    intro st k h
    exact ih _ k (stop_capture_activeFlag_false st i k h)

theorem foldl_stop_sessions_sublist (ids : List Nat) :
    ∀ st : Coordinator, ((ids.foldl stop_capture st)).sessions.Sublist st.sessions := by
  induction ids with
  | nil => intro st; exact List.Sublist.refl _
  | cons i rest ih =>
    intro st
    refine (ih (stop_capture st i)).trans ?_
    rw [stop_capture_sessions]
    exact eraseSession_sublist _ _

theorem pause_capture_parts (st : Coordinator) (id : Nat) :
    (pause_capture st id).sessions = st.sessions ∧
    (pause_capture st id).activeFlag = st.activeFlag ∧
    (pause_capture st id).nextToken = st.nextToken := by
  unfold pause_capture
  cases lookupSession st.sessions id <;> exact ⟨rfl, rfl, rfl⟩

theorem resume_capture_parts (st : Coordinator) (id : Nat) :
    (resume_capture st id).sessions = st.sessions ∧
    (resume_capture st id).activeFlag = st.activeFlag ∧
    (resume_capture st id).nextToken = st.nextToken := by
  unfold resume_capture
  cases lookupSession st.sessions id <;> exact ⟨rfl, rfl, rfl⟩

theorem set_target_fps_keys (st : Coordinator) (id fps : Nat) :
    ((set_target_fps st id fps).sessions).map Prod.fst = st.sessions.map Prod.fst := by
  simp only [set_target_fps, List.map_map]
  refine List.map_congr_left ?_
  intro p _
  by_cases hp : p.1 = id <;> simp [hp]

theorem nodupKeys_erase {l : List (Nat × SessionInfo)} (h : NodupKeys l) (id : Nat) :
    NodupKeys (eraseSession l id) :=
  List.Nodup.sublist ((eraseSession_sublist l id).map Prod.fst) h

theorem nodupKeys_start (st : Coordinator) (id : Nat) (hwnd : Int)
    (title : String) (fps : Nat) (h : NodupKeys st.sessions) :
    NodupKeys (start_capture st id hwnd title fps).sessions := by
  unfold start_capture NodupKeys
  simp only [List.map_cons, List.nodup_cons, stop_capture_sessions]
  constructor
  · intro hm
    obtain ⟨p, hp, hfst⟩ := List.mem_map.mp hm
    exact eraseSession_keys_ne st.sessions id p hp hfst
  · exact nodupKeys_erase h id

theorem nodupKeys_applyOp (st : Coordinator) (op : CoordOp)
    (h : NodupKeys st.sessions) : NodupKeys (applyOp st op).sessions := by
  cases op with
  | start id hwnd title fps => exact nodupKeys_start st id hwnd title fps h
  | stop id =>
    rw [applyOp, stop_capture_sessions]
    exact nodupKeys_erase h id
  | stopAll =>
    exact List.Nodup.sublist ((foldl_stop_sessions_sublist _ st).map Prod.fst) h
  | pause id => rw [applyOp, (pause_capture_parts st id).1]; exact h
  | resume id => rw [applyOp, (resume_capture_parts st id).1]; exact h
  | setFps id fps =>
    unfold NodupKeys
    rw [applyOp, set_target_fps_keys]
    exact h

theorem nodupKeys_applyOps (ops : List CoordOp) :
    ∀ st : Coordinator, NodupKeys st.sessions → NodupKeys (applyOps st ops).sessions := by
  induction ops with
  | nil => intro st h; exact h
  | cons op rest ih =>
    intro st h
    exact ih (applyOp st op) (nodupKeys_applyOp st op h)

theorem tokensBelow_stop (st : Coordinator) (id : Nat) (h : TokensBelow st) :
    TokensBelow (stop_capture st id) := by
  intro p hp
  rw [stop_capture_nextToken]
  rw [stop_capture_sessions] at hp
  exact h p ((eraseSession_sublist _ _).mem hp)

theorem tokensBelow_start (st : Coordinator) (id : Nat) (hwnd : Int)
    (title : String) (fps : Nat) (h : TokensBelow st) :
    TokensBelow (start_capture st id hwnd title fps) := by
  intro p hp
  have hnt : (start_capture st id hwnd title fps).nextToken =
      (stop_capture st id).nextToken + 1 := rfl
  have hsess : (start_capture st id hwnd title fps).sessions =
      (id, { token := (stop_capture st id).nextToken, preview_id := id,
             hwnd := hwnd, window_title := title, target_fps := fps }) ::
        (stop_capture st id).sessions := rfl
  rw [hsess] at hp
  rw [hnt]
  rcases List.mem_cons.mp hp with hp | hp
  · subst hp; simp
  · have := tokensBelow_stop st id h p hp
    omega

theorem tokensBelow_applyOp (st : Coordinator) (op : CoordOp)
    (h : TokensBelow st) : TokensBelow (applyOp st op) := by
  cases op with
  | start id hwnd title fps => exact tokensBelow_start st id hwnd title fps h
  | stop id => exact tokensBelow_stop st id h
  | stopAll =>
    intro p hp
    rw [applyOp] at hp ⊢
    unfold stop_all at hp ⊢
    rw [foldl_stop_nextToken]
    exact h p ((foldl_stop_sessions_sublist _ st).mem hp)
  | pause id =>
    intro p hp
    rw [applyOp, (pause_capture_parts st id).1] at hp
    rw [applyOp, (pause_capture_parts st id).2.2]
    exact h p hp
  | resume id =>
    intro p hp
    rw [applyOp, (resume_capture_parts st id).1] at hp
    rw [applyOp, (resume_capture_parts st id).2.2]
    exact h p hp
  | setFps id fps =>
    intro p hp
    have hnt : (applyOp st (.setFps id fps)).nextToken = st.nextToken := rfl
    rw [hnt]
    simp only [applyOp, set_target_fps, List.mem_map] at hp
    obtain ⟨q, hq, hpq⟩ := hp
    have hqb := h q hq
    by_cases hqi : q.1 = id
    · simp only [hqi, if_pos] at hpq
      rw [← hpq]
      exact hqb
    · simp only [hqi, if_neg, not_false_iff] at hpq
      rw [← hpq]
      exact hqb

theorem tokensBelow_applyOps (ops : List CoordOp) :
    ∀ st : Coordinator, TokensBelow st → TokensBelow (applyOps st ops) := by
  induction ops with
  | nil => intro st h; exact h
  | cons op rest ih =>
    intro st h
    exact ih (applyOp st op) (tokensBelow_applyOp st op h)

theorem nextToken_mono_applyOp (st : Coordinator) (op : CoordOp) :
    st.nextToken ≤ (applyOp st op).nextToken := by
  cases op with
  | start id hwnd title fps =>
    simp only [applyOp, start_capture, stop_capture_nextToken]
    omega
  | stop id => rw [applyOp, stop_capture_nextToken]
  | stopAll => rw [applyOp]; unfold stop_all; rw [foldl_stop_nextToken]
  | pause id => rw [applyOp, (pause_capture_parts st id).2.2]
  | resume id => rw [applyOp, (resume_capture_parts st id).2.2]
  | setFps id fps => rfl

theorem activeFlag_applyOp_false (st : Coordinator) (op : CoordOp) (k : Nat)
    (hk : k < st.nextToken) (h : st.activeFlag k = false) :
    (applyOp st op).activeFlag k = false := by
  cases op with
  | start id hwnd title fps =>
    simp only [applyOp, start_capture]
    have h1 : (stop_capture st id).activeFlag k = false :=
      stop_capture_activeFlag_false st id k h
    have h2 : k ≠ (stop_capture st id).nextToken := by
      rw [stop_capture_nextToken]; omega
    simp [h2, h1]
  | stop id => exact stop_capture_activeFlag_false st id k h
  | stopAll => exact foldl_stop_activeFlag_false _ st k h
  | pause id => rw [applyOp, (pause_capture_parts st id).2.1]; exact h
  | resume id => rw [applyOp, (resume_capture_parts st id).2.1]; exact h
  | setFps id fps => exact h

theorem activeFlag_applyOps_false (ops : List CoordOp) :
    ∀ (st : Coordinator) (k : Nat), k < st.nextToken → st.activeFlag k = false →
      (applyOps st ops).activeFlag k = false := by
  induction ops with
  | nil => intro st k _ h; exact h
  | cons op rest ih =>
    intro st k hk h
    exact ih (applyOp st op) k
      (lt_of_lt_of_le hk (nextToken_mono_applyOp st op))
      (activeFlag_applyOp_false st op k hk h)

theorem countKey_erase (l : List (Nat × SessionInfo)) (id : Nat) :
    countKey (eraseSession l id) id = 0 := by
  unfold countKey
  rw [List.length_eq_zero]
  rw [List.filter_eq_nil_iff]
  intro p hp
  simpa using eraseSession_keys_ne l id p hp

theorem lookupSession_mem {l : List (Nat × SessionInfo)} {id : Nat}
    {s : SessionInfo} (h : lookupSession l id = some s) : (id, s) ∈ l := by
  induction l with
  | nil => simp [lookupSession] at h
  | cons q rest ih =>
    obtain ⟨k, s'⟩ := q
    by_cases hk : k = id
    · subst hk
      have h' : s' = s := by simpa [lookupSession] using h
      exact List.mem_cons.mpr (Or.inl (by rw [h']))
    · simp only [lookupSession, if_neg hk] at h
      exact List.mem_cons.mpr (Or.inr (ih h))

theorem lookupSession_erase_self (l : List (Nat × SessionInfo)) (id : Nat) :
    lookupSession (eraseSession l id) id = none :=
  lookupSession_eq_none.mpr (eraseSession_keys_ne l id)

theorem stop_capture_activeFlag_hit (st : Coordinator) (id : Nat)
    (s : SessionInfo) (h : lookupSession st.sessions id = some s) :
    (stop_capture st id).activeFlag s.token = false := by
  unfold stop_capture
  rw [h]
  simp

theorem start_capture_lookup (st : Coordinator) (id : Nat) (hwnd : Int)
    (title : String) (fps : Nat) :
    lookupSession (start_capture st id hwnd title fps).sessions id =
      some { token := (stop_capture st id).nextToken, preview_id := id,
             hwnd := hwnd, window_title := title, target_fps := fps } := by
  have hsess : (start_capture st id hwnd title fps).sessions =
      (id, { token := (stop_capture st id).nextToken, preview_id := id,
             hwnd := hwnd, window_title := title, target_fps := fps }) ::
        (stop_capture st id).sessions := rfl
  rw [hsess]
  simp [lookupSession]

theorem start_capture_countKey (st : Coordinator) (id : Nat) (hwnd : Int)
    (title : String) (fps : Nat) :
    countKey (start_capture st id hwnd title fps).sessions id = 1 := by
  have hsess : (start_capture st id hwnd title fps).sessions =
      (id, { token := (stop_capture st id).nextToken, preview_id := id,
             hwnd := hwnd, window_title := title, target_fps := fps }) ::
        (stop_capture st id).sessions := rfl
  rw [hsess]
  unfold countKey
  rw [List.filter_cons_of_pos (by simp)]
  have := countKey_erase st.sessions id
  unfold countKey at this
  rw [List.length_cons, stop_capture_sessions, this]

/-- C2: over every operation sequence the registry maps each preview id
to at most one session; a `start_capture` for an id that already has a
session writes `false` into that session's shared `active` cell and
removes it before inserting; and after any sequence of `start` calls for
one id, exactly one session is registered for it, carrying the last
call's title and rate. -/
theorem registry_replace_semantics :
    (∀ ops : List CoordOp, NodupKeys (applyOps Coordinator.force_new ops).sessions) ∧
    (∀ (ops : List CoordOp) (id : Nat) (hwnd : Int) (title : String) (fps : Nat)
        (s : SessionInfo),
      lookupSession (applyOps Coordinator.force_new ops).sessions id = some s →
      (start_capture (applyOps Coordinator.force_new ops) id hwnd title fps).activeFlag
          s.token = false ∧
      lookupSession (stop_capture (applyOps Coordinator.force_new ops) id).sessions id
        = none) ∧
    (∀ (st : Coordinator) (id : Nat) (calls : List (Int × String × Nat))
        (hwnd : Int) (title : String) (fps : Nat),
      countKey (start_capture (applyStarts st id calls) id hwnd title fps).sessions id
          = 1 ∧
      (lookupSession
          (start_capture (applyStarts st id calls) id hwnd title fps).sessions id).map
          (fun s => (s.window_title, s.target_fps)) = some (title, fps)) := by
  refine ⟨?_, ?_, ?_⟩
  · intro ops
    exact nodupKeys_applyOps ops Coordinator.force_new (by simp [Coordinator.force_new, NodupKeys])
  · intro ops id hwnd title fps s hs
    set st := applyOps Coordinator.force_new ops with hst
    have htb : TokensBelow st :=
      tokensBelow_applyOps ops Coordinator.force_new
        (by intro p hp; simp [Coordinator.force_new] at hp)
    have htk : s.token < st.nextToken := htb (id, s) (lookupSession_mem hs)
    constructor
    · have h1 : (stop_capture st id).activeFlag s.token = false :=
        stop_capture_activeFlag_hit st id s hs
      have h2 : s.token ≠ (stop_capture st id).nextToken := by
        rw [stop_capture_nextToken]; omega
      show (if s.token = (stop_capture st id).nextToken then true
        else (stop_capture st id).activeFlag s.token) = false
      simp [h2, h1]
    · rw [stop_capture_sessions]
      exact lookupSession_erase_self st.sessions id
  · intro st id calls hwnd title fps
    exact ⟨start_capture_countKey _ id hwnd title fps,
      by rw [start_capture_lookup]; rfl⟩

/-- Witness for C2: Scenario B — start id 2 with "Alpha", start id 2
again with "Beta"; the first session's `active` cell is `false`, and
exactly one session (with "Beta") is registered. -/
theorem registry_replace_semantics_witness :
    (lookupSession (applyOps Coordinator.force_new
        [.start 2 7 "Alpha" 30]).sessions 2 =
      some { token := 0, preview_id := 2, hwnd := 7,
             window_title := "Alpha", target_fps := 30 }) ∧
    ((start_capture (applyOps Coordinator.force_new
          [.start 2 7 "Alpha" 30]) 2 7 "Beta" 30).activeFlag 0 = false ∧
      lookupSession (stop_capture (applyOps Coordinator.force_new
          [.start 2 7 "Alpha" 30]) 2).sessions 2 = none) ∧
    (countKey (start_capture (applyStarts Coordinator.force_new 2
          [(7, "Alpha", 30)]) 2 7 "Beta" 30).sessions 2 = 1 ∧
      (lookupSession (start_capture (applyStarts Coordinator.force_new 2
          [(7, "Alpha", 30)]) 2 7 "Beta" 30).sessions 2).map
          (fun s => (s.window_title, s.target_fps)) = some ("Beta", 30)) :=
  ⟨by decide,
    registry_replace_semantics.2.1 [.start 2 7 "Alpha" 30] 2 7 "Beta" 30
      { token := 0, preview_id := 2, hwnd := 7,
        window_title := "Alpha", target_fps := 30 } (by decide),
    registry_replace_semantics.2.2 Coordinator.force_new 2
      [(7, "Alpha", 30)] 7 "Beta" 30⟩

/-- C3: setting a session's `active` cell to `false` is terminal — no
coordinator operation sequence ever sets an allocated cell back to
`true` — and a frame callback that reads `active = false` sends nothing
and requests termination of the capture engine. -/
theorem active_false_terminal :
    (∀ (ops : List CoordOp) (st : Coordinator) (k : Nat),
      k < st.nextToken → st.activeFlag k = false →
      (applyOps st ops).activeFlag k = false) ∧
    (∀ (c : Capture) (paused : Bool) (now : Nat) (frame : FrameBuf)
        (senderOk : Bool),
      on_frame_arrived c false paused now frame senderOk =
        { capture := c, sent := none, stopRequested := true }) := by
  refine ⟨?_, ?_⟩
  · intro ops st k hk h
    exact activeFlag_applyOps_false ops st k hk h
  · intro c paused now frame senderOk
    simp [on_frame_arrived]

/-- Witness for C3: a stopped session's cell stays `false` under further
operations, and its callback forwards nothing while requesting stop. -/
theorem active_false_terminal_witness :
    ((0 : Nat) < (applyOps Coordinator.force_new
        [.start 1 7 "Notepad" 30, .stop 1]).nextToken ∧
      (applyOps Coordinator.force_new
        [.start 1 7 "Notepad" 30, .stop 1]).activeFlag 0 = false) ∧
    (applyOps (applyOps Coordinator.force_new [.start 1 7 "Notepad" 30, .stop 1])
        [.start 1 7 "Notepad" 60, .pause 1, .resume 1]).activeFlag 0 = false ∧
    on_frame_arrived { preview_id := 1, frame_interval := 10, last_frame := 0 }
        false false 100 fbDemo true =
      { capture := { preview_id := 1, frame_interval := 10, last_frame := 0 },
        sent := none, stopRequested := true } :=
  ⟨⟨by decide, by decide⟩,
    active_false_terminal.1 [.start 1 7 "Notepad" 60, .pause 1, .resume 1]
      (applyOps Coordinator.force_new [.start 1 7 "Notepad" 30, .stop 1]) 0
      (by decide) (by decide),
    active_false_terminal.2
      { preview_id := 1, frame_interval := 10, last_frame := 0 }
      false 100 fbDemo true⟩

/-- C4: while `paused = true` (and `active = true`) a callback leaves
the handler state (including the throttle clock) unchanged, sends
nothing, and does not request stop — independently of the frame buffer,
which it never inspects; `pause`/`resume` only toggle the session's
shared `paused` cell and any sequence of toggles leaves the `active`
cells and the registry untouched; once resumed, the next callback that
passes the throttle test forwards its frame. -/
theorem paused_suppression :
    (∀ (c : Capture) (now : Nat) (f : FrameBuf) (senderOk : Bool),
      on_frame_arrived c true true now f senderOk =
        { capture := c, sent := none, stopRequested := false }) ∧
    (∀ (st : Coordinator) (id : Nat) (s : SessionInfo),
      lookupSession st.sessions id = some s →
      (pause_capture st id).pausedFlag s.token = true ∧
      (resume_capture st id).pausedFlag s.token = false) ∧
    (∀ (st : Coordinator) (ops : List CoordOp),
      (∀ op ∈ ops, op.isToggle = true) →
      (applyOps st ops).activeFlag = st.activeFlag ∧
      (applyOps st ops).sessions = st.sessions) ∧
    (∀ (c : Capture) (now : Nat) (f : FrameBuf),
      c.frame_interval ≤ now - c.last_frame →
      on_frame_arrived c true false now f true =
        { capture := { c with last_frame := now },
          sent := some { preview_id := c.preview_id, width := f.width,
                         height := f.height, data := f.data },
          stopRequested := false }) := by
  refine ⟨?_, ?_, ?_, ?_⟩
  · intro c now f senderOk
    simp [on_frame_arrived]
  · intro st id s hs
    constructor
    · unfold pause_capture
      rw [hs]
      simp
    · unfold resume_capture
      rw [hs]
      simp
  · intro st ops h
    induction ops generalizing st with
    | nil => exact ⟨rfl, rfl⟩
    | cons op rest ih =>
      have hop : op.isToggle = true := h op (by simp)
      have hrest := ih (applyOp st op) (fun o ho => h o (by simp [ho]))
      cases op with
      | pause id =>
        have happ : applyOp st (CoordOp.pause id) = pause_capture st id := rfl
        have h1 := hrest.1
        have h2 := hrest.2
        rw [happ] at h1 h2
        have hstep : applyOps st (CoordOp.pause id :: rest) =
            applyOps (pause_capture st id) rest := rfl
        constructor
        · rw [hstep, h1, (pause_capture_parts st id).2.1]
        · rw [hstep, h2, (pause_capture_parts st id).1]
      | resume id =>
        have happ : applyOp st (CoordOp.resume id) = resume_capture st id := rfl
        have h1 := hrest.1
        have h2 := hrest.2
        rw [happ] at h1 h2
        have hstep : applyOps st (CoordOp.resume id :: rest) =
            applyOps (resume_capture st id) rest := rfl
        constructor
        · rw [hstep, h1, (resume_capture_parts st id).2.1]
        · rw [hstep, h2, (resume_capture_parts st id).1]
      | start id hwnd title fps => simp [CoordOp.isToggle] at hop
      | stop id => simp [CoordOp.isToggle] at hop
      | stopAll => simp [CoordOp.isToggle] at hop
      | setFps id fps => simp [CoordOp.isToggle] at hop
  · intro c now f hq
    have hth : ¬ (now - c.last_frame < c.frame_interval) := by omega
    simp [on_frame_arrived, hth]

/-- Witness for C4: Scenario C shape — pause suppresses a callback
without touching the throttle clock, resume clears the `paused` cell,
and the next qualifying callback forwards its frame. -/
theorem paused_suppression_witness :
    (on_frame_arrived { preview_id := 3, frame_interval := 10, last_frame := 0 }
        true true 100 fbDemo true =
      { capture := { preview_id := 3, frame_interval := 10, last_frame := 0 },
        sent := none, stopRequested := false }) ∧
    (lookupSession (applyOps Coordinator.force_new
        [.start 3 7 "Gamma" 15]).sessions 3 =
      some { token := 0, preview_id := 3, hwnd := 7,
             window_title := "Gamma", target_fps := 15 } ∧
      (pause_capture (applyOps Coordinator.force_new
          [.start 3 7 "Gamma" 15]) 3).pausedFlag 0 = true ∧
      (resume_capture (applyOps Coordinator.force_new
          [.start 3 7 "Gamma" 15]) 3).pausedFlag 0 = false) ∧
    ((10 : Nat) ≤ 100 - 0 ∧
      on_frame_arrived { preview_id := 3, frame_interval := 10, last_frame := 0 }
          true false 100 fbDemo true =
        { capture := { preview_id := 3, frame_interval := 10, last_frame := 100 },
          sent := some { preview_id := 3, width := fbDemo.width,
                         height := fbDemo.height, data := fbDemo.data },
          stopRequested := false }) :=
  ⟨paused_suppression.1 { preview_id := 3, frame_interval := 10, last_frame := 0 }
      100 fbDemo true,
    ⟨by decide,
      (paused_suppression.2.1 (applyOps Coordinator.force_new
          [.start 3 7 "Gamma" 15]) 3
        { token := 0, preview_id := 3, hwnd := 7,
          window_title := "Gamma", target_fps := 15 } (by decide)).1,
      (paused_suppression.2.1 (applyOps Coordinator.force_new
          [.start 3 7 "Gamma" 15]) 3
        { token := 0, preview_id := 3, hwnd := 7,
          window_title := "Gamma", target_fps := 15 } (by decide)).2⟩,
    ⟨by decide,
      paused_suppression.2.2.2
        { preview_id := 3, frame_interval := 10, last_frame := 0 }
        100 fbDemo (by decide)⟩⟩

theorem update_frame_buffer (p : Preview) (w h : Nat) (d : List Nat) :
    (update_frame p w h d).frame_buffer =
      some { width := w, height := h, data := d } := by
  by_cases hwh : 0 < w ∧ 0 < h <;> simp [update_frame, hwh]

theorem process_frames_loop_spec (n : Nat) :
    ∀ (ch : Channel) (m : PreviewMap),
      (process_frames_loop n ch m).1.queue = ch.queue.drop n ∧
      (process_frames_loop n ch m).2.1 = List.foldl deliver m (ch.queue.take n) := by
  induction n with
  | zero => intro ch m; simp [process_frames_loop]
  | succ k ih =>
    intro ch m
    cases hq : ch.queue with
    | nil =>
      by_cases hd : ch.disconnected <;>
        simp [process_frames_loop, try_recv, hq, hd]
    | cons f rest =>
      have := ih { queue := rest, disconnected := ch.disconnected } (deliver m f)
      simpa [process_frames_loop, try_recv, hq] using this

/-- C7: each `process_frames` call pops at most 10 frames from the
channel (exactly the first 10 queued, or all of them if fewer are
pending), delivers each popped frame to its preview's mailbox by
unconditional overwrite, and with 15 frames pending leaves 5, which a
second call then consumes. -/
theorem drain_budget (ch : Channel) (m : PreviewMap) :
    (process_frames ch m).1.queue = ch.queue.drop 10 ∧
    (process_frames ch m).2.1 = List.foldl deliver m (ch.queue.take 10) ∧
    (∀ (p : Preview) (w h : Nat) (d : List Nat),
      (update_frame p w h d).frame_buffer =
        some { width := w, height := h, data := d }) ∧
    (ch.queue.length = 15 →
      (process_frames ch m).1.queue.length = 5 ∧
      (process_frames (process_frames ch m).1
        (process_frames ch m).2.1).1.queue.length = 0) := by
  obtain ⟨h1, h2⟩ := process_frames_loop_spec 10 ch m
  refine ⟨h1, h2, update_frame_buffer, ?_⟩
  intro h15
  obtain ⟨h3, _⟩ := process_frames_loop_spec 10 (process_frames ch m).1
    (process_frames ch m).2.1
  have h1' : (process_frames ch m).1.queue = ch.queue.drop 10 := h1
  have h3' : (process_frames (process_frames ch m).1
      (process_frames ch m).2.1).1.queue =
      (process_frames ch m).1.queue.drop 10 := h3
  constructor
  · rw [h1', List.length_drop, h15]
  · rw [h3', h1', List.length_drop, List.length_drop, h15]

/-- Witness for C7 at a channel holding 15 concrete frames. -/
theorem drain_budget_witness :
    ((Channel.mk (List.replicate 15
        { preview_id := 1, width := 2, height := 2, data := [1, 2, 3, 4] })
        false).queue.length = 15) ∧
    ((process_frames (Channel.mk (List.replicate 15
        { preview_id := 1, width := 2, height := 2, data := [1, 2, 3, 4] })
        false) []).1.queue.length = 5 ∧
      (process_frames (process_frames (Channel.mk (List.replicate 15
          { preview_id := 1, width := 2, height := 2, data := [1, 2, 3, 4] })
          false) []).1
        (process_frames (Channel.mk (List.replicate 15
          { preview_id := 1, width := 2, height := 2, data := [1, 2, 3, 4] })
          false) []).2.1).1.queue.length = 0) :=
  ⟨by decide,
    (drain_budget (Channel.mk (List.replicate 15
        { preview_id := 1, width := 2, height := 2, data := [1, 2, 3, 4] })
        false) []).2.2.2 (by decide)⟩

theorem process_frames_loop_disconnect (n : Nat) :
    ∀ (ch : Channel) (m : PreviewMap), ch.disconnected = true →
      ch.queue.length < n →
      process_frames_loop n ch m =
        ({ queue := [], disconnected := true }, List.foldl deliver m ch.queue, true) := by
  induction n with
  | zero => intro ch m _ hlen; omega
  | succ k ih =>
    intro ch m hd hlen
    obtain ⟨q, d⟩ := ch
    simp only at hd hlen
    subst hd
    cases q with
    | nil => simp [process_frames_loop, try_recv]
    | cons f rest =>
      have hr := ih { queue := rest, disconnected := true } (deliver m f) rfl
        (by simpa using Nat.lt_of_succ_lt_succ hlen)
      simpa [process_frames_loop, try_recv] using hr

/-- C8 counterexample: on a disconnected, empty channel the call leaves
every caller-visible state component exactly as it was and returns
nothing (the source function returns `()`): the only trace of the
condition is the `log::error!` line, which the caller of the drain never
receives — identical in shape to an uneventful empty drain on a healthy
channel. -/
theorem drain_disconnect_silent :
    (process_frames { queue := [], disconnected := true } []).2.2 = true ∧
    process_frames_caller_view { queue := [], disconnected := true } [] =
      ({ queue := [], disconnected := true }, []) ∧
    (process_frames { queue := [], disconnected := false } []).2.2 = false ∧
    process_frames_caller_view { queue := [], disconnected := false } [] =
      ({ queue := [], disconnected := false }, []) := by
  refine ⟨rfl, rfl, rfl, rfl⟩

/-- C8 (amended): when the channel reports permanent disconnection
during a drain, the loop stops early (with budget remaining), emits the
error log, and leaves the preview state exactly as already delivered;
the condition is fatal for that call only — it is logged rather than
returned, and the registry keeps operating. -/
theorem drain_disconnect_stops_early (ch : Channel) (m : PreviewMap)
    (hd : ch.disconnected = true) (hlen : ch.queue.length < 10) :
    process_frames ch m =
      ({ queue := [], disconnected := true }, List.foldl deliver m ch.queue, true) :=
  process_frames_loop_disconnect 10 ch m hd hlen

/-- Witness for the amended C8 on a disconnected channel holding one
frame. -/
theorem drain_disconnect_stops_early_witness :
    ((Channel.mk [{ preview_id := 1, width := 2, height := 2, data := [1, 2, 3, 4] }]
        true).disconnected = true ∧
      (Channel.mk [{ preview_id := 1, width := 2, height := 2, data := [1, 2, 3, 4] }]
        true).queue.length < 10) ∧
    process_frames (Channel.mk
        [{ preview_id := 1, width := 2, height := 2, data := [1, 2, 3, 4] }] true) [] =
      ({ queue := [], disconnected := true },
        List.foldl deliver []
          [{ preview_id := 1, width := 2, height := 2, data := [1, 2, 3, 4] }], true) :=
  ⟨⟨rfl, by decide⟩,
    drain_disconnect_stops_early (Channel.mk
        [{ preview_id := 1, width := 2, height := 2, data := [1, 2, 3, 4] }] true) []
      rfl (by decide)⟩

/-- C10: a drained frame whose preview id has no registered preview is
silently discarded — `deliver` leaves the manager untouched — and the
loop simply continues on the remaining queue with the remaining budget,
raising no error. -/
theorem drain_unknown_preview_discard (n : Nat) (ch : Channel) (m : PreviewMap)
    (f : CapturedFrame) (rest : List CapturedFrame)
    (hq : ch.queue = f :: rest) (hm : pm_get m f.preview_id = none) :
    deliver m f = m ∧
    process_frames_loop (n + 1) ch m =
      process_frames_loop n { ch with queue := rest } m := by
  have hdel : deliver m f = m := by
    unfold deliver
    rw [hm]
  refine ⟨hdel, ?_⟩
  simp [process_frames_loop, try_recv, hq, hdel]

/-- Witness for C10: a frame for unregistered preview id 42 arriving at
a manager that only knows preview 1. -/
theorem drain_unknown_preview_discard_witness :
    ((Channel.mk [{ preview_id := 42, width := 2, height := 2, data := [1, 2, 3, 4] }]
        false).queue =
      [{ preview_id := 42, width := 2, height := 2, data := [1, 2, 3, 4] }] ∧
      pm_get [(1, { frame_size := none, source_aspect := 1, crop_uv := none,
                    frame_buffer := none })] 42 = none) ∧
    (deliver [(1, { frame_size := none, source_aspect := 1, crop_uv := none,
                    frame_buffer := none })]
        { preview_id := 42, width := 2, height := 2, data := [1, 2, 3, 4] } =
      [(1, { frame_size := none, source_aspect := 1, crop_uv := none,
             frame_buffer := none })] ∧
      process_frames_loop 10 (Channel.mk
          [{ preview_id := 42, width := 2, height := 2, data := [1, 2, 3, 4] }] false)
          [(1, { frame_size := none, source_aspect := 1, crop_uv := none,
                 frame_buffer := none })] =
        process_frames_loop 9 { queue := [], disconnected := false }
          [(1, { frame_size := none, source_aspect := 1, crop_uv := none,
                 frame_buffer := none })]) :=
  ⟨⟨rfl, rfl⟩,
    drain_unknown_preview_discard 9 (Channel.mk
        [{ preview_id := 42, width := 2, height := 2, data := [1, 2, 3, 4] }] false)
      [(1, { frame_size := none, source_aspect := 1, crop_uv := none,
             frame_buffer := none })]
      { preview_id := 42, width := 2, height := 2, data := [1, 2, 3, 4] } [] rfl rfl⟩

/-- C5 counterexample: the conversion is not a round trip on every byte
buffer — on the one-byte buffer `[1]` (length not a multiple of 4, so
`chunks_exact` skips it and the zero-allocated output stays) applying it
twice yields `[0]`, not `[1]`. -/
theorem rgba_round_trip_fails_on_ragged :
    rgba_from_bgra (rgba_from_bgra [1]) = [0] ∧
    rgba_from_bgra (rgba_from_bgra [1]) ≠ [1] := by
  refine ⟨rfl, by decide⟩

/-- C5 (amended): the conversion always preserves the buffer length, and
on every buffer whose length is a multiple of 4 (i.e. whole BGRA pixels)
applying it twice returns the original buffer; it is a pure function of
the input. -/
theorem rgba_round_trip (l : List Nat) :
    (rgba_from_bgra l).length = l.length ∧
    (4 ∣ l.length → rgba_from_bgra (rgba_from_bgra l) = l) :=
  ⟨rgba_from_bgra_length l, rgba_from_bgra_invol l⟩

/-- Witness for the amended C5 on one whole pixel. -/
theorem rgba_round_trip_witness :
    ((4 : Nat) ∣ ([1, 2, 3, 4] : List Nat).length) ∧
    rgba_from_bgra (rgba_from_bgra [1, 2, 3, 4]) = [1, 2, 3, 4] :=
  ⟨by decide, (rgba_round_trip [1, 2, 3, 4]).2 (by decide)⟩

/-- C6: window resolution prefers tier 1 (exact title match) over tier 2
(candidate contains requested) over tier 3 (re-enumeration with
bidirectional case-insensitive containment, first valid window), first
success winning; when all three tiers fail the session's worker returns
before any capture is created, forwarding zero frames. -/
theorem resolve_tier_preference (e1 : List OsWindow) (e2 : Option (List OsWindow))
    (title : String) :
    (∀ w, from_name e1 title = some w → resolve_window e1 e2 title = some w) ∧
    (from_name e1 title = none →
      ∀ w, from_contains_name e1 title = some w →
        resolve_window e1 e2 title = some w) ∧
    (from_name e1 title = none → from_contains_name e1 title = none →
      ∀ ws, e2 = some ws →
        resolve_window e1 e2 title = enumerate_find ws title) ∧
    (resolve_window e1 e2 title = none →
      ∀ (c : Capture) (evs : List FrameEvent),
        capture_window_loop_frames e1 e2 title c evs = []) := by
  refine ⟨?_, ?_, ?_, ?_⟩
  · intro w hw
    unfold resolve_window
    rw [hw]
  · intro h1 w hw
    unfold resolve_window
    rw [h1, hw]
  · intro h1 h2 ws hws
    unfold resolve_window
    rw [h1, h2, hws]
  · intro hres c evs
    unfold capture_window_loop_frames
    rw [hres]

/-- Witness for C6: tier 1 on "Notepad", tier 2 on "Chrome - Tab X"
(Scenario D), tier 3 on "The Notepad App", and zero frames on an
unmatched title. -/
theorem resolve_tier_preference_witness :
    (from_name [OsWindow.mk true (some "Google Chrome - Tab X"),
        OsWindow.mk true (some "Notepad")] "Notepad" =
        some (OsWindow.mk true (some "Notepad")) ∧
      resolve_window [OsWindow.mk true (some "Google Chrome - Tab X"),
        OsWindow.mk true (some "Notepad")]
        (some [OsWindow.mk true (some "Google Chrome - Tab X"),
          OsWindow.mk true (some "Notepad")]) "Notepad" =
        some (OsWindow.mk true (some "Notepad"))) ∧
    (resolve_window [OsWindow.mk true (some "Google Chrome - Tab X"),
        OsWindow.mk true (some "Notepad")]
        (some [OsWindow.mk true (some "Google Chrome - Tab X"),
          OsWindow.mk true (some "Notepad")]) "Chrome - Tab X" =
      some (OsWindow.mk true (some "Google Chrome - Tab X"))) ∧
    (resolve_window [OsWindow.mk true (some "Google Chrome - Tab X"),
        OsWindow.mk true (some "Notepad")]
        (some [OsWindow.mk true (some "Google Chrome - Tab X"),
          OsWindow.mk true (some "Notepad")]) "The Notepad App" =
      enumerate_find [OsWindow.mk true (some "Google Chrome - Tab X"),
        OsWindow.mk true (some "Notepad")] "The Notepad App") ∧
    capture_window_loop_frames [OsWindow.mk true (some "Google Chrome - Tab X"),
        OsWindow.mk true (some "Notepad")]
      (some [OsWindow.mk true (some "Google Chrome - Tab X"),
        OsWindow.mk true (some "Notepad")]) "ZZZ"
      { preview_id := 1, frame_interval := 10, last_frame := 0 }
      [{ time := 100, active := true, paused := false, frame := fbDemo }] = [] :=
  ⟨⟨by decide,
      (resolve_tier_preference [OsWindow.mk true (some "Google Chrome - Tab X"),
          OsWindow.mk true (some "Notepad")]
        (some [OsWindow.mk true (some "Google Chrome - Tab X"),
          OsWindow.mk true (some "Notepad")]) "Notepad").1
        (OsWindow.mk true (some "Notepad")) (by decide)⟩,
    (resolve_tier_preference [OsWindow.mk true (some "Google Chrome - Tab X"),
        OsWindow.mk true (some "Notepad")]
      (some [OsWindow.mk true (some "Google Chrome - Tab X"),
        OsWindow.mk true (some "Notepad")]) "Chrome - Tab X").2.1
      (by decide) (OsWindow.mk true (some "Google Chrome - Tab X")) (by decide),
    (resolve_tier_preference [OsWindow.mk true (some "Google Chrome - Tab X"),
        OsWindow.mk true (some "Notepad")]
      (some [OsWindow.mk true (some "Google Chrome - Tab X"),
        OsWindow.mk true (some "Notepad")]) "The Notepad App").2.2.1
      (by decide) (by decide) _ rfl,
    (resolve_tier_preference [OsWindow.mk true (some "Google Chrome - Tab X"),
        OsWindow.mk true (some "Notepad")]
      (some [OsWindow.mk true (some "Google Chrome - Tab X"),
        OsWindow.mk true (some "Notepad")]) "ZZZ").2.2.2 (by decide)
      { preview_id := 1, frame_interval := 10, last_frame := 0 }
      [{ time := 100, active := true, paused := false, frame := fbDemo }]⟩

end Pluriview
